import Mathlib

/-
Formal model of `src/ProjectVersion1/vehicle_dynamics.py`: discrete-time
nonlinear bicycle-model vehicle dynamics with forward-Euler discretization
and hand-coded Jacobians.  States live in ℝ^6 (modelled as `Fin 6 → ℝ`),
inputs in ℝ^2 (`Fin 2 → ℝ`).
-/

namespace Vehicle

/-- Discretization stepsize `dt = 1e-3` (forward Euler). -/
noncomputable def dt : ℝ := 1/1000

/-- Vehicle mass `mm = 1480` kg. -/
noncomputable def mm : ℝ := 1480

/-- Yaw inertia `Iz = 1950` kg·m². -/
noncomputable def Iz : ℝ := 1950

/-- Front axle distance `aa = 1.421` m. -/
noncomputable def aa : ℝ := 1421/1000

/-- Rear axle distance `bb = 1.029` m. -/
noncomputable def bb : ℝ := 1029/1000

/-- Friction coefficient `mi = 1`. -/
noncomputable def mi : ℝ := 1

/-- Gravitational acceleration `gg = 9.81` m/s². -/
noncomputable def gg : ℝ := 981/100

/-- Front slip angle `Beta[0]` from `dynamics`:
`uu[0] - (xx[3]*sin(xx[4]) + aa*xx[5]) / (xx[3]*cos(xx[4]))`. -/
noncomputable def Beta0 (xx : Fin 6 → ℝ) (uu : Fin 2 → ℝ) : ℝ :=
  uu 0 - (xx 3 * Real.sin (xx 4) + aa * xx 5) / (xx 3 * Real.cos (xx 4))

/-- Rear slip angle `Beta[1]` from `dynamics`:
`-(xx[3]*sin(xx[4]) - bb*xx[5]) / (xx[3]*cos(xx[4]))`. -/
noncomputable def Beta1 (xx : Fin 6 → ℝ) : ℝ :=
  -((xx 3 * Real.sin (xx 4) - bb * xx 5) / (xx 3 * Real.cos (xx 4)))

/-- Front vertical load `Fz[0] = mm*gg*bb/(aa+bb)`. -/
noncomputable def Fz0 : ℝ := mm * gg * bb / (aa + bb)

/-- Rear vertical load `Fz[1] = mm*gg*aa/(aa+bb)`. -/
noncomputable def Fz1 : ℝ := mm * gg * aa / (aa + bb)

/-- Front lateral force `Fy[0] = mi*Fz[0]*Beta[0]`. -/
noncomputable def Fy0 (xx : Fin 6 → ℝ) (uu : Fin 2 → ℝ) : ℝ :=
  mi * Fz0 * Beta0 xx uu

/-- Rear lateral force `Fy[1] = mi*Fz[1]*Beta[1]`. -/
noncomputable def Fy1 (xx : Fin 6 → ℝ) : ℝ :=
  mi * Fz1 * Beta1 xx

/-- Next state `xxp` computed by `dynamics` (lines 66–71 of the source). -/
noncomputable def nextState (xx : Fin 6 → ℝ) (uu : Fin 2 → ℝ) : Fin 6 → ℝ := fun i =>
  match i with
  | 0 => xx 0 + dt * (xx 3 * Real.cos (xx 4) * Real.cos (xx 2) -
          xx 3 * Real.sin (xx 4) * Real.sin (xx 2))
  | 1 => xx 1 + dt * (xx 3 * Real.cos (xx 4) * Real.sin (xx 2) +
          xx 3 * Real.sin (xx 4) * Real.cos (xx 2))
  | 2 => xx 2 + dt * xx 5
  | 3 => xx 3 + dt * ((Fy1 xx * Real.sin (xx 4) + uu 1 * Real.cos (xx 4 - uu 0) +
          Fy0 xx uu * Real.sin (xx 4 - uu 0)) / mm)
  | 4 => xx 4 + dt * ((Fy1 xx * Real.cos (xx 4) + Fy0 xx uu * Real.cos (xx 4 - uu 0) -
          uu 1 * Real.sin (xx 4 - uu 0)) / (mm * xx 3) - xx 5)
  | 5 => xx 5 + dt * (((uu 1 * Real.sin (uu 0) + Fy0 xx uu * Real.cos (uu 0)) * aa -
          Fy1 xx * bb) / Iz)

/-- Row 0 of the Jacobian `fx` (line 87 of the source): `[1, 0, 0, 0, 0, 0]`. -/
noncomputable def fxRow0 : Fin 6 → ℝ := fun j =>
  match j with
  | 0 => 1
  | 1 => 0
  | 2 => 0
  | 3 => 0
  | 4 => 0
  | 5 => 0

/-- Row 1 of the Jacobian `fx` (line 88 of the source): `[0, 1, 0, 0, 0, 0]`. -/
noncomputable def fxRow1 : Fin 6 → ℝ := fun j =>
  match j with
  | 0 => 0
  | 1 => 1
  | 2 => 0
  | 3 => 0
  | 4 => 0
  | 5 => 0

/-- Row 2 of the Jacobian `fx` (lines 89–90 of the source). -/
noncomputable def fxRow2 (xx : Fin 6 → ℝ) : Fin 6 → ℝ := fun j =>
  match j with
  | 0 => dt * (-(xx 3) * Real.cos (xx 4) * Real.sin (xx 2) -
      xx 3 * Real.sin (xx 4) * Real.cos (xx 2))
  | 1 => dt * (xx 3 * Real.cos (xx 4) * Real.cos (xx 2) -
      xx 3 * Real.sin (xx 4) * Real.sin (xx 2))
  | 2 => 1
  | 3 => 0
  | 4 => 0
  | 5 => 0

/-- Row 3 of the Jacobian `fx` (lines 91–93 of the source). -/
noncomputable def fxRow3 (xx : Fin 6 → ℝ) (uu : Fin 2 → ℝ) : Fin 6 → ℝ := fun j =>
  match j with
  | 0 => dt * (Real.cos (xx 4) * Real.cos (xx 2) - Real.sin (xx 4) * Real.sin (xx 2))
  | 1 => dt * (Real.cos (xx 4) * Real.sin (xx 2) + Real.sin (xx 4) * Real.cos (xx 2))
  | 2 => 0
  | 3 => 1
  | 4 => dt * ((Fy1 xx * Real.cos (xx 4) + Fy0 xx uu * Real.cos (xx 4 - uu 0) -
      uu 1 * Real.sin (xx 4 - uu 0)) * (-1 / (mm * (xx 3)^2)))
  | 5 => 0

/-- Row 4 of the Jacobian `fx` (lines 94–98 of the source). -/
noncomputable def fxRow4 (xx : Fin 6 → ℝ) (uu : Fin 2 → ℝ) : Fin 6 → ℝ := fun j =>
  match j with
  | 0 => dt * (-(xx 3) * Real.sin (xx 4) * Real.cos (xx 2) -
      xx 3 * Real.cos (xx 4) * Real.sin (xx 2))
  | 1 => dt * (-(xx 3) * Real.sin (xx 4) * Real.sin (xx 2) +
      xx 3 * Real.cos (xx 4) * Real.cos (xx 2))
  | 2 => 0
  | 3 => dt * ((Fy1 xx * Real.cos (xx 4) - uu 1 * Real.sin (xx 4 - uu 0) +
      Fy0 xx uu * Real.cos (xx 4 - uu 0)) / mm)
  | 4 => 1 + dt * ((-(Fy1 xx) * Real.sin (xx 4) - Fy0 xx uu * Real.sin (xx 4 - uu 0) -
      uu 1 * Real.cos (xx 4 - uu 0)) / (mm * xx 3))
  | 5 => 0

/-- Row 5 of the Jacobian `fx` (line 99 of the source): `[0, 0, dt, 0, -dt, 1]`. -/
noncomputable def fxRow5 : Fin 6 → ℝ := fun j =>
  match j with
  | 0 => 0
  | 1 => 0
  | 2 => dt
  | 3 => 0
  | 4 => -dt
  | 5 => 1

/-- Jacobian `fx` of `dynamics` w.r.t. the state (lines 86–99 of the source). -/
noncomputable def fx (xx : Fin 6 → ℝ) (uu : Fin 2 → ℝ) : Fin 6 → Fin 6 → ℝ := fun i =>
  match i with
  | 0 => fxRow0
  | 1 => fxRow1
  | 2 => fxRow2 xx
  | 3 => fxRow3 xx uu
  | 4 => fxRow4 xx uu
  | 5 => fxRow5

/-- Jacobian `fu` of `dynamics` w.r.t. the input: allocated as
`np.zeros((ni, ns))` and never written to afterwards. -/
noncomputable def fu (_xx : Fin 6 → ℝ) (_uu : Fin 2 → ℝ) : Fin 2 → Fin 6 → ℝ :=
  fun _ _ => 0

/-- The full return value of `dynamics`: `(xxp, fx, fu)`. -/
noncomputable def dynamics (xx : Fin 6 → ℝ) (uu : Fin 2 → ℝ) :
    (Fin 6 → ℝ) × (Fin 6 → Fin 6 → ℝ) × (Fin 2 → Fin 6 → ℝ) :=
  (nextState xx uu, fx xx uu, fu xx uu)

/-- The straight-driving test state `[0,0,0,10,0,0]`. -/
noncomputable def xTest : Fin 6 → ℝ := fun i =>
  match i with
  | 0 => 0
  | 1 => 0
  | 2 => 0
  | 3 => 10
  | 4 => 0
  | 5 => 0

/-- The zero input `[0,0]`. -/
noncomputable def uTest : Fin 2 → ℝ := fun i =>
  match i with
  | 0 => 0
  | 1 => 0

/-- The unit-speed test state `[0,0,0,1,0,0]`. -/
noncomputable def xUnit : Fin 6 → ℝ := fun i =>
  match i with
  | 0 => 0
  | 1 => 0
  | 2 => 0
  | 3 => 1
  | 4 => 0
  | 5 => 0

/-! Definitions written from the spec's own words (section 4), used to compare
the code against the specified forward-Euler update. -/

/-- Front slip angle as written in spec section 4 step 1. -/
noncomputable def specBetaF (x : Fin 6 → ℝ) (u : Fin 2 → ℝ) : ℝ :=
  u 0 - (x 3 * Real.sin (x 4) + aa * x 5) / (x 3 * Real.cos (x 4))

/-- Rear slip angle as written in spec section 4 step 1. -/
noncomputable def specBetaR (x : Fin 6 → ℝ) : ℝ :=
  -((x 3 * Real.sin (x 4) - bb * x 5) / (x 3 * Real.cos (x 4)))

/-- Static front vertical load, spec section 4 step 2. -/
noncomputable def specFzF : ℝ := mm * gg * bb / (aa + bb)

/-- Static rear vertical load, spec section 4 step 2. -/
noncomputable def specFzR : ℝ := mm * gg * aa / (aa + bb)

/-- Linear front lateral tire force, spec section 4 step 3. -/
noncomputable def specFyF (x : Fin 6 → ℝ) (u : Fin 2 → ℝ) : ℝ :=
  mi * specFzF * specBetaF x u

/-- Linear rear lateral tire force, spec section 4 step 3. -/
noncomputable def specFyR (x : Fin 6 → ℝ) : ℝ :=
  mi * specFzR * specBetaR x

/-- Next state as written in spec section 4 step 4, with
`psi = x 2`, `V = x 3`, `beta = x 4`, `omega = x 5`, `delta = u 0`, `Fx = u 1`. -/
noncomputable def specNextState (x : Fin 6 → ℝ) (u : Fin 2 → ℝ) : Fin 6 → ℝ := fun i =>
  match i with
  | 0 => x 0 + dt * (x 3 * Real.cos (x 4) * Real.cos (x 2) -
          x 3 * Real.sin (x 4) * Real.sin (x 2))
  | 1 => x 1 + dt * (x 3 * Real.cos (x 4) * Real.sin (x 2) +
          x 3 * Real.sin (x 4) * Real.cos (x 2))
  | 2 => x 2 + dt * x 5
  | 3 => x 3 + dt * (specFyR x * Real.sin (x 4) + u 1 * Real.cos (x 4 - u 0) +
          specFyF x u * Real.sin (x 4 - u 0)) / mm
  | 4 => x 4 + dt * ((specFyR x * Real.cos (x 4) + specFyF x u * Real.cos (x 4 - u 0) -
          u 1 * Real.sin (x 4 - u 0)) / (mm * x 3) - x 5)
  | 5 => x 5 + dt * (((u 1 * Real.sin (u 0) + specFyF x u * Real.cos (u 0)) * aa -
          specFyR x * bb) / Iz)

/-- The constant vector `[0,0,1,0,0,dt]` the spec asserts for Jacobian row 2. -/
noncomputable def specRow2 : Fin 6 → ℝ := fun j =>
  match j with
  | 0 => 0
  | 1 => 0
  | 2 => 1
  | 3 => 0
  | 4 => 0
  | 5 => dt

/-- The constant vector `[0,0,dt,0,-dt,1]` the spec asserts for Jacobian row 5. -/
noncomputable def specRow5 : Fin 6 → ℝ := fun j =>
  match j with
  | 0 => 0
  | 1 => 0
  | 2 => dt
  | 3 => 0
  | 4 => -dt
  | 5 => 1

/-- The vector the spec asserts for Jacobian row 0, written with
`psi = x 2`, `V = x 3`, `beta = x 4` exactly as in spec section 4 step 5. -/
noncomputable def specRow0 (x : Fin 6 → ℝ) : Fin 6 → ℝ := fun j =>
  match j with
  | 0 => 1
  | 1 => 0
  | 2 => dt * (-(x 3) * Real.cos (x 4) * Real.sin (x 2) -
      x 3 * Real.sin (x 4) * Real.cos (x 2))
  | 3 => dt * (Real.cos (x 4) * Real.cos (x 2) - Real.sin (x 4) * Real.sin (x 2))
  | 4 => dt * (-(x 3) * Real.sin (x 4) * Real.cos (x 2) -
      x 3 * Real.cos (x 4) * Real.sin (x 2))
  | 5 => 0

/-- The vector the spec asserts for Jacobian row 1: the row-0 pattern with
sin/cos mixed per the Y equation of spec section 4 step 4. -/
noncomputable def specRow1 (x : Fin 6 → ℝ) : Fin 6 → ℝ := fun j =>
  match j with
  | 0 => 0
  | 1 => 1
  | 2 => dt * (x 3 * Real.cos (x 4) * Real.cos (x 2) -
      x 3 * Real.sin (x 4) * Real.sin (x 2))
  | 3 => dt * (Real.cos (x 4) * Real.sin (x 2) + Real.sin (x 4) * Real.cos (x 2))
  | 4 => dt * (-(x 3) * Real.sin (x 4) * Real.sin (x 2) +
      x 3 * Real.cos (x 4) * Real.cos (x 2))
  | 5 => 0

/-- Standard basis vector `e0 = [1,0,0,0,0,0]`. -/
noncomputable def e0 : Fin 6 → ℝ := fun j =>
  match j with
  | 0 => 1
  | 1 => 0
  | 2 => 0
  | 3 => 0
  | 4 => 0
  | 5 => 0

/-- Standard basis vector `e1 = [0,1,0,0,0,0]`. -/
noncomputable def e1 : Fin 6 → ℝ := fun j =>
  match j with
  | 0 => 0
  | 1 => 1
  | 2 => 0
  | 3 => 0
  | 4 => 0
  | 5 => 0

/-- Expected next state `[0.01, 0, 0, 10, 0, 0]` of the spec's worked example. -/
noncomputable def xTestNext : Fin 6 → ℝ := fun i =>
  match i with
  | 0 => 1/100
  | 1 => 0
  | 2 => 0
  | 3 => 10
  | 4 => 0
  | 5 => 0

/-- The state with its position components shifted by `(dX, dY)`. -/
noncomputable def shiftXY (x : Fin 6 → ℝ) (dX dY : ℝ) : Fin 6 → ℝ := fun i =>
  match i with
  | 0 => x 0 + dX
  | 1 => x 1 + dY
  | 2 => x 2
  | 3 => x 3
  | 4 => x 4
  | 5 => x 5

/-!  Theorems settling the claims. -/

/-- C1: for every state with nonzero speed and nonzero cosine of sideslip and
every input, the first returned value of dynamics equals the forward-Euler
next state given by the six equations of spec section 4 step 4, computed
through the spec's slip angles, static loads and linear lateral forces. -/
theorem C1_next_state_matches_spec (xx : Fin 6 → ℝ) (uu : Fin 2 → ℝ)
    (hV : xx 3 ≠ 0) (hc : Real.cos (xx 4) ≠ 0) :
    (dynamics xx uu).1 = specNextState xx uu := by
  funext i
  fin_cases i <;>
    simp only [dynamics, nextState, specNextState, Fy0, Fy1, specFyF, specFyR,
      Beta0, Beta1, specBetaF, specBetaR, Fz0, Fz1, specFzF, specFzR] <;>
    ring

/-- Witness for C1 at the state `[0,0,0,10,0,0]` and input `[0,0]`. -/
theorem C1_next_state_matches_spec_witness :
    (dynamics xTest uTest).1 = specNextState xTest uTest :=
  C1_next_state_matches_spec xTest uTest
    (by norm_num [xTest])
    (by norm_num [xTest, Real.cos_zero])

/-- C2 as stated is false: at the state `[0,0,0,1,0,0]` (which has nonzero
speed and nonzero cosine of sideslip) and input `[0,0]`, row 2 of the
returned Jacobian is not the constant vector `[0,0,1,0,0,dt]`. -/
theorem C2_counterexample :
    ¬ ((dynamics xUnit uTest).2.1 2 = specRow2 ∧
       (dynamics xUnit uTest).2.1 5 = specRow5) := by
  rintro ⟨h, -⟩
  have h1 := congrFun h 1
  simp [dynamics, fx, fxRow2, specRow2, xUnit, uTest, dt] at h1

/-- C2 amended: for every state with nonzero speed and nonzero cosine of
sideslip and every input, row 5 of the returned Jacobian is the constant
vector `[0,0,dt,0,-dt,1]`; the constant vector `[0,0,1,0,0,dt]` appears as
column 2 of the Jacobian rather than as row 2; and row 2 instead carries the
state-dependent partials of X' and Y' with respect to psi in its first two
entries, with `fx[2][2] = 1` and `fx[2][3] = fx[2][4] = fx[2][5] = 0`. -/
theorem C2_amended (xx : Fin 6 → ℝ) (uu : Fin 2 → ℝ)
    (hV : xx 3 ≠ 0) (hc : Real.cos (xx 4) ≠ 0) :
    (∀ j, (dynamics xx uu).2.1 5 j = specRow5 j) ∧
    (∀ i, (dynamics xx uu).2.1 i 2 = specRow2 i) ∧
    (dynamics xx uu).2.1 2 0 = specRow0 xx 2 ∧
    (dynamics xx uu).2.1 2 1 = specRow1 xx 2 ∧
    (dynamics xx uu).2.1 2 2 = 1 ∧
    (dynamics xx uu).2.1 2 3 = 0 ∧
    (dynamics xx uu).2.1 2 4 = 0 ∧
    (dynamics xx uu).2.1 2 5 = 0 := by
  refine ⟨?_, ?_, ?_, ?_, ?_, ?_, ?_, ?_⟩
  · intro j
    fin_cases j <;> simp [dynamics, fx, fxRow5, specRow5]
  · intro i
    fin_cases i <;>
      simp [dynamics, fx, fxRow0, fxRow1, fxRow2, fxRow3, fxRow4, fxRow5, specRow2]
  all_goals simp [dynamics, fx, fxRow2, specRow0, specRow1]

/-- Witness for the amended C2 at the state `[0,0,0,1,0,0]` and input `[0,0]`. -/
theorem C2_amended_witness :
    (∀ j, (dynamics xUnit uTest).2.1 5 j = specRow5 j) ∧
    (∀ i, (dynamics xUnit uTest).2.1 i 2 = specRow2 i) ∧
    (dynamics xUnit uTest).2.1 2 0 = specRow0 xUnit 2 ∧
    (dynamics xUnit uTest).2.1 2 1 = specRow1 xUnit 2 ∧
    (dynamics xUnit uTest).2.1 2 2 = 1 ∧
    (dynamics xUnit uTest).2.1 2 3 = 0 ∧
    (dynamics xUnit uTest).2.1 2 4 = 0 ∧
    (dynamics xUnit uTest).2.1 2 5 = 0 :=
  C2_amended xUnit uTest (by norm_num [xUnit]) (by norm_num [xUnit, Real.cos_zero])

/-- C3 as stated is false: at the state `[0,0,0,1,0,0]` and input `[0,0]`,
row 0 of the returned Jacobian is not the vector
`[1, 0, dt*(-V*cos(beta)*sin(psi) - V*sin(beta)*cos(psi)),
dt*(cos(beta)*cos(psi) - sin(beta)*sin(psi)),
dt*(-V*sin(beta)*cos(psi) - V*cos(beta)*sin(psi)), 0]`. -/
theorem C3_counterexample :
    ¬ ((dynamics xUnit uTest).2.1 0 = specRow0 xUnit) := by
  intro h
  have h3 := congrFun h 3
  simp [dynamics, fx, fxRow0, specRow0, xUnit, uTest, dt] at h3

/-- C3 amended: for every state with nonzero speed and nonzero cosine of
sideslip and every input, row 0 of the returned Jacobian is the constant
basis vector `[1,0,0,0,0,0]`, and the vector the claim describes appears
instead as column 0 of the Jacobian. -/
theorem C3_amended (xx : Fin 6 → ℝ) (uu : Fin 2 → ℝ)
    (hV : xx 3 ≠ 0) (hc : Real.cos (xx 4) ≠ 0) :
    ((dynamics xx uu).2.1 0 = e0) ∧
    (∀ i, (dynamics xx uu).2.1 i 0 = specRow0 xx i) := by
  constructor
  · funext j
    fin_cases j <;> simp [dynamics, fx, fxRow0, e0]
  · intro i
    fin_cases i <;>
      simp [dynamics, fx, fxRow0, fxRow1, fxRow2, fxRow3, fxRow4, fxRow5, specRow0]

/-- Witness for the amended C3 at the state `[0,0,0,1,0,0]` and input `[0,0]`. -/
theorem C3_amended_witness :
    ((dynamics xUnit uTest).2.1 0 = e0) ∧
    (∀ i, (dynamics xUnit uTest).2.1 i 0 = specRow0 xUnit i) :=
  C3_amended xUnit uTest (by norm_num [xUnit]) (by norm_num [xUnit, Real.cos_zero])

/-- C4: for every state and input, the third returned value fu of dynamics is
the 2-by-6 all-zero matrix; no entry is ever populated with a nonzero value. -/
theorem C4_fu_always_zero (xx : Fin 6 → ℝ) (uu : Fin 2 → ℝ) (i : Fin 2) (j : Fin 6) :
    (dynamics xx uu).2.2 i j = 0 := rfl

/-- C5: for every state and every input, component 2 of the next state equals
`x 2 + dt * x 5` exactly; the right-hand side mentions neither the input nor
the tire forces. -/
theorem C5_yaw_integration (xx : Fin 6 → ℝ) (uu : Fin 2 → ℝ) :
    (dynamics xx uu).1 2 = xx 2 + dt * xx 5 := rfl

/-- C6: with the module's parameter values, dynamics applied to the state
`[0,0,0,10,0,0]` and input `[0,0]` yields zero slip angles, zero lateral
forces, and next state `[0.01, 0, 0, 10, 0, 0]`. -/
theorem C6_straight_line_example :
    Beta0 xTest uTest = 0 ∧ Beta1 xTest = 0 ∧
    Fy0 xTest uTest = 0 ∧ Fy1 xTest = 0 ∧
    ∀ i, (dynamics xTest uTest).1 i = xTestNext i := by
  have hb0 : Beta0 xTest uTest = 0 := by
    simp [Beta0, xTest, uTest]
  have hb1 : Beta1 xTest = 0 := by
    simp [Beta1, xTest]
  have hf0 : Fy0 xTest uTest = 0 := by
    simp [Fy0, hb0]
  have hf1 : Fy1 xTest = 0 := by
    simp [Fy1, hb1]
  refine ⟨hb0, hb1, hf0, hf1, ?_⟩
  intro i
  fin_cases i <;>
    simp [dynamics, nextState, hf0, hf1, xTest, uTest, xTestNext, dt] <;>
    norm_num

/-- C8: dynamics is deterministic; its result depends only on the two
argument vectors (the parameters are fixed module constants), so equal
arguments give identical returned triples. -/
theorem C8_deterministic (xx xx' : Fin 6 → ℝ) (uu uu' : Fin 2 → ℝ)
    (hx : xx = xx') (hu : uu = uu') :
    dynamics xx uu = dynamics xx' uu' := by
  rw [hx, hu]

/-- Witness for C8 at the state `[0,0,0,10,0,0]` and input `[0,0]`. -/
theorem C8_deterministic_witness :
    dynamics xTest uTest = dynamics xTest uTest :=
  C8_deterministic xTest xTest uTest uTest rfl rfl

/-- C9: rows 0 and 1 of the returned Jacobian are the constant basis vectors
`[1,0,0,0,0,0]` and `[0,1,0,0,0,0]`, and the state-dependent partials of the
position updates (the spec's rows 0 and 1) appear instead as columns 0 and 1:
the matrix is laid out as the transpose of the spec's row convention. -/
theorem C9_transposed_layout (xx : Fin 6 → ℝ) (uu : Fin 2 → ℝ) :
    ((dynamics xx uu).2.1 0 = e0) ∧ ((dynamics xx uu).2.1 1 = e1) ∧
    (∀ i, (dynamics xx uu).2.1 i 0 = specRow0 xx i) ∧
    (∀ i, (dynamics xx uu).2.1 i 1 = specRow1 xx i) := by
  refine ⟨?_, ?_, ?_, ?_⟩
  · funext j
    fin_cases j <;> simp [dynamics, fx, fxRow0, e0]
  · funext j
    fin_cases j <;> simp [dynamics, fx, fxRow1, e1]
  · intro i
    fin_cases i <;>
      simp [dynamics, fx, fxRow0, fxRow1, fxRow2, fxRow3, fxRow4, fxRow5, specRow0]
  · intro i
    fin_cases i <;>
      simp [dynamics, fx, fxRow0, fxRow1, fxRow2, fxRow3, fxRow4, fxRow5, specRow1]

/-- C10: dynamics is translation-equivariant in position: shifting the two
position components of the state by `(dX, dY)` shifts components 0 and 1 of
the next state by exactly `(dX, dY)` and leaves next-state components 2..5
and both Jacobians unchanged. -/
theorem C10_translation_equivariance (xx : Fin 6 → ℝ) (uu : Fin 2 → ℝ) (dX dY : ℝ) :
    (dynamics (shiftXY xx dX dY) uu).1 0 = (dynamics xx uu).1 0 + dX ∧
    (dynamics (shiftXY xx dX dY) uu).1 1 = (dynamics xx uu).1 1 + dY ∧
    (dynamics (shiftXY xx dX dY) uu).1 2 = (dynamics xx uu).1 2 ∧
    (dynamics (shiftXY xx dX dY) uu).1 3 = (dynamics xx uu).1 3 ∧
    (dynamics (shiftXY xx dX dY) uu).1 4 = (dynamics xx uu).1 4 ∧
    (dynamics (shiftXY xx dX dY) uu).1 5 = (dynamics xx uu).1 5 ∧
    (dynamics (shiftXY xx dX dY) uu).2.1 = (dynamics xx uu).2.1 ∧
    (dynamics (shiftXY xx dX dY) uu).2.2 = (dynamics xx uu).2.2 := by
  refine ⟨?_, ?_, rfl, rfl, rfl, rfl, rfl, rfl⟩
  · simp only [dynamics, nextState, shiftXY]
    ring
  · simp only [dynamics, nextState, shiftXY]
    ring

end Vehicle
